import Mathlib

/-!
Verification of the JtagKnocker TAP state engine (`jtagtap.c`) and its
signal/pin abstraction layer (`jtag.c`), shallowly embedded in Lean 4.

The TAP engine is translated from the source file directly: the C global
`TAPState` becomes an explicit state argument, the calls into the signal
layer (`jtag_Set`, `jtag_Clock`, and the busy-wait delay) become an event
trace, and `jtag_IsAllocated(JTAG_SIGNAL_TRST)` becomes a boolean
parameter `trst`.  The unbounded `while (TAPState != target)` loop is
embedded as a fuel-indexed iteration `runLoop`; `loopFuel` is proved
sufficient for every state/target pair, which is exactly the termination
of the C loop.
-/

/-- The five logical JTAG signals (`jtag_Signal` in `jtag.h`). -/
inductive jtag_Signal where
  | TCK
  | TMS
  | TDI
  | TDO
  | TRST
deriving DecidableEq, Fintype, Repr

/-- The 17 TAP states of `jtagTAP_TAPState`, in C enum order
(`JTAGTAP_STATE_UNKNOWN = 0` through `JTAGTAP_STATE_IR_UPDATE = 16`). -/
inductive jtagTAP_TAPState where
  | UNKNOWN
  | RESET
  | IDLE
  | DR_SCAN
  | DR_CAPTURE
  | DR_SHIFT
  | DR_EXIT1
  | DR_PAUSE
  | DR_EXIT2
  | DR_UPDATE
  | IR_SCAN
  | IR_CAPTURE
  | IR_SHIFT
  | IR_EXIT1
  | IR_PAUSE
  | IR_EXIT2
  | IR_UPDATE
deriving DecidableEq, Fintype, Repr

/-- The numeric value of each C enum constant, used wherever the C source
compares states with `<=` / `>=` (the DR/IR range tests). -/
def jtagTAP_TAPState.toCode : jtagTAP_TAPState → Nat
  | .UNKNOWN => 0
  | .RESET => 1
  | .IDLE => 2
  | .DR_SCAN => 3
  | .DR_CAPTURE => 4
  | .DR_SHIFT => 5
  | .DR_EXIT1 => 6
  | .DR_PAUSE => 7
  | .DR_EXIT2 => 8
  | .DR_UPDATE => 9
  | .IR_SCAN => 10
  | .IR_CAPTURE => 11
  | .IR_SHIFT => 12
  | .IR_EXIT1 => 13
  | .IR_PAUSE => 14
  | .IR_EXIT2 => 15
  | .IR_UPDATE => 16

/-- Observable hardware actions of the TAP engine: `set sig level` is a call
`jtag_Set(sig, level)`, `clock` is a call `jtag_Clock()`, and `delay` is the
`delay_count` busy-wait spin between asserting and releasing TRST. -/
inductive jtag_Event where
  | set (sig : jtag_Signal) (level : Bool)
  | clock
  | delay
deriving DecidableEq, Repr

/-- `delay_count` from `jtagtap.c`: iterations of the TRST settle busy-wait. -/
def delay_count : Nat := 20000

/-- The hardware-reset pulse sequence of `jtagTAP_SetState`: TMS high, TRST
asserted (low), spin delay, TRST released (high).  No clock pulses. -/
def trstResetEvents : List jtag_Event :=
  [jtag_Event.set jtag_Signal.TMS true,
   jtag_Event.set jtag_Signal.TRST false,
   jtag_Event.delay,
   jtag_Event.set jtag_Signal.TRST true]

open jtagTAP_TAPState in
/-- One iteration of the `while (TAPState != target)` loop body of
`jtagTAP_SetState` (the big `switch (TAPState)`): returns the emitted
events and the new value of `TAPState`.  `trst` is
`jtag_IsAllocated(JTAG_SIGNAL_TRST)`. -/
def tapStep (trst : Bool) (target s : jtagTAP_TAPState) :
    List jtag_Event × jtagTAP_TAPState :=
  match s with
  | UNKNOWN =>
    if trst then
      (trstResetEvents, RESET)
    else
      ([jtag_Event.set jtag_Signal.TMS true, jtag_Event.clock, jtag_Event.clock,
        jtag_Event.clock, jtag_Event.clock, jtag_Event.clock], RESET)
  | RESET => ([jtag_Event.set jtag_Signal.TMS false, jtag_Event.clock], IDLE)
  | IDLE => ([jtag_Event.set jtag_Signal.TMS true, jtag_Event.clock], DR_SCAN)
  | DR_SCAN =>
    if DR_CAPTURE.toCode ≤ target.toCode ∧ target.toCode ≤ DR_UPDATE.toCode then
      ([jtag_Event.set jtag_Signal.TMS false, jtag_Event.clock], DR_CAPTURE)
    else
      ([jtag_Event.set jtag_Signal.TMS true, jtag_Event.clock], IR_SCAN)
  | DR_CAPTURE =>
    if target = DR_SHIFT then
      ([jtag_Event.set jtag_Signal.TMS false, jtag_Event.clock], DR_SHIFT)
    else
      ([jtag_Event.set jtag_Signal.TMS true, jtag_Event.clock], DR_EXIT1)
  | DR_SHIFT => ([jtag_Event.set jtag_Signal.TMS true, jtag_Event.clock], DR_EXIT1)
  | DR_EXIT1 =>
    if target = DR_PAUSE ∨ target = DR_EXIT2 ∨ target = DR_SHIFT then
      ([jtag_Event.set jtag_Signal.TMS false, jtag_Event.clock], DR_PAUSE)
    else
      ([jtag_Event.set jtag_Signal.TMS true, jtag_Event.clock], DR_UPDATE)
  | DR_PAUSE => ([jtag_Event.set jtag_Signal.TMS true, jtag_Event.clock], DR_EXIT2)
  | DR_EXIT2 =>
    if target = DR_PAUSE ∨ target = DR_EXIT1 ∨ target = DR_SHIFT then
      ([jtag_Event.set jtag_Signal.TMS false, jtag_Event.clock], DR_SHIFT)
    else
      ([jtag_Event.set jtag_Signal.TMS true, jtag_Event.clock], DR_UPDATE)
  | DR_UPDATE =>
    if target = IDLE then
      ([jtag_Event.set jtag_Signal.TMS false, jtag_Event.clock], IDLE)
    else
      ([jtag_Event.set jtag_Signal.TMS true, jtag_Event.clock], DR_SCAN)
  | IR_SCAN =>
    if IR_CAPTURE.toCode ≤ target.toCode ∧ target.toCode ≤ IR_UPDATE.toCode then
      ([jtag_Event.set jtag_Signal.TMS false, jtag_Event.clock], IR_CAPTURE)
    else
      ([jtag_Event.set jtag_Signal.TMS true, jtag_Event.clock], RESET)
  | IR_CAPTURE =>
    if target = IR_SHIFT then
      ([jtag_Event.set jtag_Signal.TMS false, jtag_Event.clock], IR_SHIFT)
    else
      ([jtag_Event.set jtag_Signal.TMS true, jtag_Event.clock], IR_EXIT1)
  | IR_SHIFT => ([jtag_Event.set jtag_Signal.TMS true, jtag_Event.clock], IR_EXIT1)
  | IR_EXIT1 =>
    if target = IR_PAUSE ∨ target = IR_EXIT2 ∨ target = IR_SHIFT then
      ([jtag_Event.set jtag_Signal.TMS false, jtag_Event.clock], IR_PAUSE)
    else
      ([jtag_Event.set jtag_Signal.TMS true, jtag_Event.clock], IR_UPDATE)
  | IR_PAUSE => ([jtag_Event.set jtag_Signal.TMS true, jtag_Event.clock], IR_EXIT2)
  | IR_EXIT2 =>
    if target = IR_PAUSE ∨ target = IR_EXIT1 ∨ target = IR_SHIFT then
      ([jtag_Event.set jtag_Signal.TMS false, jtag_Event.clock], IR_SHIFT)
    else
      ([jtag_Event.set jtag_Signal.TMS true, jtag_Event.clock], IR_UPDATE)
  | IR_UPDATE =>
    if target = IDLE then
      ([jtag_Event.set jtag_Signal.TMS false, jtag_Event.clock], IDLE)
    else
      ([jtag_Event.set jtag_Signal.TMS true, jtag_Event.clock], DR_SCAN)

/-- The transition loop of `jtagTAP_SetState`, indexed by fuel: iterate
`tapStep` while the state differs from `target`, at most `fuel` times.
`loopFuel` fuel is proved to always reach `target`, so with that fuel this
is exactly the C `while` loop. -/
def runLoop (fuel : Nat) (trst : Bool) (target s : jtagTAP_TAPState) :
    List jtag_Event × jtagTAP_TAPState :=
  match fuel with
  | 0 => ([], s)
  | fuel + 1 =>
    if s = target then ([], s)
    else
      let step := tapStep trst target s
      let rest := runLoop fuel trst target step.2
      (step.1 ++ rest.1, rest.2)

/-- Fuel that suffices for the transition loop from any state to any
non-Unknown target (the longest shortest path in the graph is below 16). -/
def loopFuel : Nat := 16

/-- `jtagTAP_SetState` from `jtagtap.c`: given `trst`
(= `jtag_IsAllocated(JTAG_SIGNAL_TRST)`), the requested `target` and the
current `TAPState` value `s`, returns the trace of hardware events and the
final `TAPState`. -/
def jtagTAP_SetState (trst : Bool) (target s : jtagTAP_TAPState) :
    List jtag_Event × jtagTAP_TAPState :=
  if target = jtagTAP_TAPState.UNKNOWN then ([], jtagTAP_TAPState.UNKNOWN)
  else
    let fp : List jtag_Event × jtagTAP_TAPState :=
      if target = jtagTAP_TAPState.RESET ∧ trst = true then
        (trstResetEvents, jtagTAP_TAPState.RESET)
      else ([], s)
    let lp := runLoop loopFuel trst target fp.2
    (fp.1 ++ lp.1, lp.2)

/-- `jtagTAP_Init` from `jtagtap.c`: the initial `TAPState`. -/
def jtagTAP_Init : jtagTAP_TAPState := jtagTAP_TAPState.UNKNOWN

/-- `jtagTAP_GetState`: the observable current state; in the embedding the
state is explicit, so this is the identity on the state component. -/
def jtagTAP_GetState (s : jtagTAP_TAPState) : jtagTAP_TAPState := s

/-- Number of `jtag_Clock()` calls in a trace. -/
def clockCount : List jtag_Event → Nat
  | [] => 0
  | jtag_Event.clock :: rest => clockCount rest + 1
  | _ :: rest => clockCount rest

/-- The TMS level sampled at each clock pulse of a trace, given the level
`cur` that TMS held when the trace started. -/
def tmsLevels (cur : Bool) : List jtag_Event → List Bool
  | [] => []
  | jtag_Event.set jtag_Signal.TMS b :: rest => tmsLevels b rest
  | jtag_Event.clock :: rest => cur :: tmsLevels cur rest
  | _ :: rest => tmsLevels cur rest

/-- The set of targets the IR-Scan row treats as "IR-path" targets: the C
range test `target >= JTAGTAP_STATE_IR_CAPTURE && target <= JTAGTAP_STATE_IR_UPDATE`
spelled out as the states IR-Capture through IR-Update. -/
def irPathTargets : List jtagTAP_TAPState :=
  [jtagTAP_TAPState.IR_CAPTURE, jtagTAP_TAPState.IR_SHIFT,
   jtagTAP_TAPState.IR_EXIT1, jtagTAP_TAPState.IR_PAUSE,
   jtagTAP_TAPState.IR_EXIT2, jtagTAP_TAPState.IR_UPDATE]

/-- For every non-Unknown target, `loopFuel` iterations of the transition
loop reach the target from any starting state: the C `while` loop
terminates in at most `loopFuel` iterations. -/
theorem runLoop_fuel_reaches : ∀ (trst : Bool) (target s : jtagTAP_TAPState),
    target ≠ jtagTAP_TAPState.UNKNOWN →
    (runLoop loopFuel trst target s).2 = target := by decide

/-- Claim C1: for every named non-Unknown target state and every starting
value of the current TAP state (and whether or not TRST is allocated),
`jtagTAP_SetState(target)` terminates after finitely many (at most
`loopFuel`) transition-loop iterations, and on return the current state,
as observed by `jtagTAP_GetState`, equals the target. -/
theorem setState_terminates_and_reaches (trst : Bool)
    (target s : jtagTAP_TAPState) (h : target ≠ jtagTAP_TAPState.UNKNOWN) :
    (∃ n, n ≤ loopFuel ∧ (runLoop n trst target s).2 = target) ∧
    jtagTAP_GetState (jtagTAP_SetState trst target s).2 = target := by
  refine ⟨⟨loopFuel, Nat.le_refl _, runLoop_fuel_reaches trst target s h⟩, ?_⟩
  unfold jtagTAP_GetState jtagTAP_SetState
  rw [if_neg h]
  exact runLoop_fuel_reaches trst target _ h

/-- Witness for claim C1 at a concrete input: target Idle, start Unknown,
TRST allocated. -/
theorem setState_terminates_and_reaches_witness :
    jtagTAP_TAPState.IDLE ≠ jtagTAP_TAPState.UNKNOWN ∧
    ((∃ n, n ≤ loopFuel ∧
        (runLoop n true jtagTAP_TAPState.IDLE jtagTAP_TAPState.UNKNOWN).2 =
          jtagTAP_TAPState.IDLE) ∧
      jtagTAP_GetState (jtagTAP_SetState true jtagTAP_TAPState.IDLE
          jtagTAP_TAPState.UNKNOWN).2 = jtagTAP_TAPState.IDLE) :=
  ⟨by decide,
   setState_terminates_and_reaches true jtagTAP_TAPState.IDLE
     jtagTAP_TAPState.UNKNOWN (by decide)⟩

/-- Claim C4: from Unknown with TRST allocated, `jtagTAP_SetState(Reset)`
performs exactly the hardware reset sequence (TMS high, TRST low, spin
delay, TRST high), issues zero clock pulses, and ends in Reset. -/
theorem setState_reset_trst_fast_path :
    jtagTAP_SetState true jtagTAP_TAPState.RESET jtagTAP_TAPState.UNKNOWN =
      ([jtag_Event.set jtag_Signal.TMS true,
        jtag_Event.set jtag_Signal.TRST false,
        jtag_Event.delay,
        jtag_Event.set jtag_Signal.TRST true], jtagTAP_TAPState.RESET) ∧
    clockCount (jtagTAP_SetState true jtagTAP_TAPState.RESET
        jtagTAP_TAPState.UNKNOWN).1 = 0 := by decide

/-- Claim C5 counterexample: the transition-loop iteration taken from the
reachable current state Unknown (with target Reset ≠ current) does not
issue exactly one clock pulse: it issues five without TRST and zero with
TRST allocated. -/
theorem tapStep_unknown_not_single_pulse :
    jtagTAP_TAPState.UNKNOWN ≠ jtagTAP_TAPState.RESET ∧
    clockCount (tapStep false jtagTAP_TAPState.RESET
        jtagTAP_TAPState.UNKNOWN).1 = 5 ∧
    clockCount (tapStep true jtagTAP_TAPState.RESET
        jtagTAP_TAPState.UNKNOWN).1 = 0 := by decide

/-- Claim C5 (amended): every iteration of the transition loop from a
current state other than Unknown (for every non-Unknown target different
from the current state) sets TMS to one specific level, issues exactly one
clock pulse after it, and updates the current state; the iteration from
Unknown instead performs the reset procedure. -/
theorem tapStep_single_pulse (trst : Bool) (target s : jtagTAP_TAPState)
    (ht : target ≠ jtagTAP_TAPState.UNKNOWN)
    (hs : s ≠ jtagTAP_TAPState.UNKNOWN) (hne : s ≠ target) :
    ∃ b : Bool, (tapStep trst target s).1 =
      [jtag_Event.set jtag_Signal.TMS b, jtag_Event.clock] := by
  revert trst target s
  decide

/-- Witness for the amended claim C5 at a concrete input: current Reset,
target Idle, TRST unallocated. -/
theorem tapStep_single_pulse_witness :
    jtagTAP_TAPState.IDLE ≠ jtagTAP_TAPState.UNKNOWN ∧
    jtagTAP_TAPState.RESET ≠ jtagTAP_TAPState.UNKNOWN ∧
    jtagTAP_TAPState.RESET ≠ jtagTAP_TAPState.IDLE ∧
    ∃ b : Bool, (tapStep false jtagTAP_TAPState.IDLE jtagTAP_TAPState.RESET).1 =
      [jtag_Event.set jtag_Signal.TMS b, jtag_Event.clock] :=
  ⟨by decide, by decide, by decide,
   tapStep_single_pulse false jtagTAP_TAPState.IDLE jtagTAP_TAPState.RESET
     (by decide) (by decide) (by decide)⟩

/-- Claim C6: for every current state (and every TRST allocation status),
calling `jtagTAP_SetState` with the target equal to the current state
issues zero clock pulses and leaves the current state unchanged. -/
theorem setState_same_target_no_pulse (trst : Bool) (s : jtagTAP_TAPState) :
    clockCount (jtagTAP_SetState trst s s).1 = 0 ∧
    (jtagTAP_SetState trst s s).2 = s := by
  revert trst s
  decide

/-- Claim C7: whenever `jtagTAP_SetState` is called with target Reset while
TRST is allocated, the hardware reset side effects (TMS high, TRST low,
busy-wait, TRST high) are performed for every starting state — including
when the current state is already Reset — and nothing else is emitted. -/
theorem setState_reset_trst_always_pulses (s : jtagTAP_TAPState) :
    (jtagTAP_SetState true jtagTAP_TAPState.RESET s).1 =
      [jtag_Event.set jtag_Signal.TMS true,
       jtag_Event.set jtag_Signal.TRST false,
       jtag_Event.delay,
       jtag_Event.set jtag_Signal.TRST true] ∧
    (jtagTAP_SetState true jtagTAP_TAPState.RESET s).2 =
      jtagTAP_TAPState.RESET := by
  revert s
  decide

/-- Claim C8: from Unknown with TRST unallocated, `jtagTAP_SetState(Idle)`
walks Unknown→Reset→Idle, issuing five clock pulses with TMS=1 and then
one clock pulse with TMS=0 (six pulses total), and ends in Idle. -/
theorem setState_idle_from_unknown_no_trst :
    jtagTAP_SetState false jtagTAP_TAPState.IDLE jtagTAP_TAPState.UNKNOWN =
      ([jtag_Event.set jtag_Signal.TMS true, jtag_Event.clock,
        jtag_Event.clock, jtag_Event.clock, jtag_Event.clock, jtag_Event.clock,
        jtag_Event.set jtag_Signal.TMS false, jtag_Event.clock],
       jtagTAP_TAPState.IDLE) ∧
    tmsLevels false (jtagTAP_SetState false jtagTAP_TAPState.IDLE
        jtagTAP_TAPState.UNKNOWN).1 =
      [true, true, true, true, true, false] ∧
    clockCount (jtagTAP_SetState false jtagTAP_TAPState.IDLE
        jtagTAP_TAPState.UNKNOWN).1 = 6 ∧
    (runLoop 1 false jtagTAP_TAPState.IDLE jtagTAP_TAPState.UNKNOWN).2 =
      jtagTAP_TAPState.RESET := by decide

/-- Claim C9: from Idle (for either TRST allocation status),
`jtagTAP_SetState(IR-Shift)` issues exactly the TMS sequence [1,1,0,0] with
one clock pulse per TMS value, passing through DR-Scan, IR-Scan and
IR-Capture, and ends in IR-Shift. -/
theorem setState_irshift_from_idle (trst : Bool) :
    jtagTAP_SetState trst jtagTAP_TAPState.IR_SHIFT jtagTAP_TAPState.IDLE =
      ([jtag_Event.set jtag_Signal.TMS true, jtag_Event.clock,
        jtag_Event.set jtag_Signal.TMS true, jtag_Event.clock,
        jtag_Event.set jtag_Signal.TMS false, jtag_Event.clock,
        jtag_Event.set jtag_Signal.TMS false, jtag_Event.clock],
       jtagTAP_TAPState.IR_SHIFT) ∧
    tmsLevels false (jtagTAP_SetState trst jtagTAP_TAPState.IR_SHIFT
        jtagTAP_TAPState.IDLE).1 = [true, true, false, false] ∧
    (runLoop 1 trst jtagTAP_TAPState.IR_SHIFT jtagTAP_TAPState.IDLE).2 =
      jtagTAP_TAPState.DR_SCAN ∧
    (runLoop 2 trst jtagTAP_TAPState.IR_SHIFT jtagTAP_TAPState.IDLE).2 =
      jtagTAP_TAPState.IR_SCAN ∧
    (runLoop 3 trst jtagTAP_TAPState.IR_SHIFT jtagTAP_TAPState.IDLE).2 =
      jtagTAP_TAPState.IR_CAPTURE := by
  revert trst
  decide

/-- Claim C10: from current state IR-Scan, the transition step moves to
IR-Capture with TMS=0 when the target is one of the IR-path states
IR-Capture through IR-Update, and otherwise sets TMS=1 and moves to
Reset — in both cases with exactly one clock pulse. -/
theorem tapStep_irscan_branches (trst : Bool) (target : jtagTAP_TAPState) :
    (target ∈ irPathTargets →
      tapStep trst target jtagTAP_TAPState.IR_SCAN =
        ([jtag_Event.set jtag_Signal.TMS false, jtag_Event.clock],
         jtagTAP_TAPState.IR_CAPTURE)) ∧
    (target ∉ irPathTargets →
      tapStep trst target jtagTAP_TAPState.IR_SCAN =
        ([jtag_Event.set jtag_Signal.TMS true, jtag_Event.clock],
         jtagTAP_TAPState.RESET)) := by
  revert trst target
  decide

/-- Witness for claim C10 at concrete inputs: target IR-Shift (IR-path)
and target Idle (not IR-path). -/
theorem tapStep_irscan_branches_witness :
    (jtagTAP_TAPState.IR_SHIFT ∈ irPathTargets ∧
      tapStep false jtagTAP_TAPState.IR_SHIFT jtagTAP_TAPState.IR_SCAN =
        ([jtag_Event.set jtag_Signal.TMS false, jtag_Event.clock],
         jtagTAP_TAPState.IR_CAPTURE)) ∧
    (jtagTAP_TAPState.IDLE ∉ irPathTargets ∧
      tapStep false jtagTAP_TAPState.IDLE jtagTAP_TAPState.IR_SCAN =
        ([jtag_Event.set jtag_Signal.TMS true, jtag_Event.clock],
         jtagTAP_TAPState.RESET)) :=
  ⟨⟨by decide, (tapStep_irscan_branches false jtagTAP_TAPState.IR_SHIFT).1
      (by decide)⟩,
   ⟨by decide, (tapStep_irscan_branches false jtagTAP_TAPState.IDLE).2
      (by decide)⟩⟩

/-!
Signal/pin abstraction layer.  The repository ships only the test harness
`test/tjtag.c` for this component; the implementation `source/jtag.c` it
includes is not present.  The definitions below are therefore modelled
from the specification (§3, §4.1 and §7 of the spec): pin assignments,
the redundant pin-usage bitset, the GPIO-D/RCC register images the tests
observe, and the `jtag_Cfg` configure operation with its two failure
paths.
-/

/-- Modelled from the spec: the process-wide state of `jtag.c` that is
missing from the sources — the signal-to-pin assignment table
`jtag_Signals` (an optional pin per signal, `none` being
`JTAG_SIGNAL_NOT_ALLOCATED`), the pin usage bitset `jtag_PinUsage`, and
the GPIO-D / RCC register values the test harness observes. -/
structure jtag_State where
  signals : jtag_Signal → Option Nat
  pinUsage : Nat
  MODER : Nat
  OTYPER : Nat
  OSPEEDR : Nat
  PUPDR : Nat
  IDR : Nat
  ODR : Nat
  BSRR : Nat
  AHBENR : Nat

/-- All five signals, for finite scans of the assignment table. -/
def jtag_SignalList : List jtag_Signal :=
  [jtag_Signal.TCK, jtag_Signal.TMS, jtag_Signal.TDI,
   jtag_Signal.TDO, jtag_Signal.TRST]

/-- The single bit contributed to the usage bitset by one assignment. -/
def sigBit : Option Nat → Nat
  | some p => 1 <<< p
  | none => 0

/-- The usage bitset determined by an assignment table: the union of the
bits of all assigned pins. -/
def usageOf (f : jtag_Signal → Option Nat) : Nat :=
  jtag_SignalList.foldr (fun s acc => sigBit (f s) ||| acc) 0

/-- All-ones mask of a 32-bit register. -/
def mask32 : Nat := 2 ^ 32 - 1

/-- Clearing one bit of a 32-bit register, as C `u &= ~(1 << p)`. -/
def clearBit32 (u p : Nat) : Nat := u &&& (mask32 ^^^ (1 <<< p))

/-- Setting one bit of a 32-bit register, as C `u |= 1 << p`. -/
def setBit32 (u p : Nat) : Nat := u ||| (1 <<< p)

/-- Clearing the 2-bit field of pin `p` in a GPIO mode-style register. -/
def clearField2 (r p : Nat) : Nat := r &&& (mask32 ^^^ (3 <<< (2 * p)))

/-- Modelled from the spec: whether `pin` is already claimed by a signal
other than `sig` in the assignment table. -/
def pinClaimedByOther (f : jtag_Signal → Option Nat) (sig : jtag_Signal)
    (pin : Nat) : Bool :=
  jtag_SignalList.any fun s => decide (s ≠ sig) && decide (f s = some pin)

/-- Updating one entry of the assignment table. -/
def updSig (f : jtag_Signal → Option Nat) (sig : jtag_Signal)
    (v : Option Nat) : jtag_Signal → Option Nat :=
  fun s => if s = sig then v else f s

/-- Modelled from the spec: the register side effects of releasing a pin —
drive it low through the reset half of BSRR and return it to input mode
(clear its MODER field). -/
def jtag_DeconfigHW (pin : Nat) (st : jtag_State) : jtag_State :=
  { st with MODER := clearField2 st.MODER pin, BSRR := 1 <<< (pin + 16) }

/-- Modelled from the spec: the register side effects of claiming a pin as
a push-pull, low-speed, no-pull output driven low. -/
def jtag_CfgOutputHW (pin : Nat) (st : jtag_State) : jtag_State :=
  { st with
    MODER := clearField2 st.MODER pin ||| (1 <<< (2 * pin)),
    OTYPER := clearBit32 st.OTYPER pin,
    OSPEEDR := clearField2 st.OSPEEDR pin,
    PUPDR := clearField2 st.PUPDR pin,
    BSRR := 1 <<< (pin + 16) }

/-- Modelled from the spec: the register side effects of claiming a pin as
a floating input (for TDO). -/
def jtag_CfgInputHW (pin : Nat) (st : jtag_State) : jtag_State :=
  { st with
    MODER := clearField2 st.MODER pin,
    PUPDR := clearField2 st.PUPDR pin }

/-- Modelled from the spec: deconfigure signal `sig` currently on pin `p` —
release the pin electrically, clear its usage bit and its assignment. -/
def jtag_Deconfig (sig : jtag_Signal) (p : Nat) (st : jtag_State) :
    jtag_State :=
  { jtag_DeconfigHW p st with
    signals := updSig st.signals sig none,
    pinUsage := clearBit32 st.pinUsage p }

/-- Modelled from the spec: claim pin `pin` for signal `sig` — mark it
used, record the assignment, and configure its direction (input for TDO,
output otherwise). -/
def jtag_Claim (sig : jtag_Signal) (pin : Nat) (st : jtag_State) :
    jtag_State :=
  let st2 := if sig = jtag_Signal.TDO then jtag_CfgInputHW pin st
             else jtag_CfgOutputHW pin st
  { st2 with
    signals := updSig st.signals sig (some pin),
    pinUsage := setBit32 st.pinUsage pin }

/-- Modelled from the spec: `jtag_Cfg(signal, pin)` from the missing
`source/jtag.c`.  `none` requests deallocation (always succeeds); a pin
number ≥ 16 fails with no state change; a pin claimed by a different
signal fails with no state change; otherwise any previously held
different pin is released and the new pin claimed.  Returns the success
flag and the new state. -/
def jtag_Cfg (sig : jtag_Signal) (req : Option Nat) (st : jtag_State) :
    Bool × jtag_State :=
  match req with
  | none =>
    match st.signals sig with
    | none => (true, st)
    | some p => (true, jtag_Deconfig sig p st)
  | some pin =>
    if 16 ≤ pin then (false, st)
    else if pinClaimedByOther st.signals sig pin then (false, st)
    else
      let st1 :=
        match st.signals sig with
        | some old => if old = pin then st else jtag_Deconfig sig old st
        | none => st
      (true, jtag_Claim sig pin st1)

/-- Modelled from the spec: `jtag_Init()` — TCK/TMS/TDI/TDO preassigned to
pins 0–3, TRST unassigned, usage bitset 0x0F, the three output pins in
output mode (MODER 0x15), push-pull, low speed, no pull, all outputs
driven low through BSRR, and the GPIO-D clock enabled without disturbing
other RCC bits. -/
def jtag_Init (st : jtag_State) : jtag_State :=
  { signals := fun s =>
      match s with
      | jtag_Signal.TCK => some 0
      | jtag_Signal.TMS => some 1
      | jtag_Signal.TDI => some 2
      | jtag_Signal.TDO => some 3
      | jtag_Signal.TRST => none,
    pinUsage := 0x0F,
    MODER := 0x15,
    OTYPER := 0,
    OSPEEDR := 0,
    PUPDR := 0,
    IDR := st.IDR,
    ODR := st.ODR,
    BSRR := 0xFFFF0000,
    AHBENR := st.AHBENR ||| (1 <<< 20) }

/-- `jtag_IsAllocated(signal)`: whether the signal has a pin assigned. -/
def jtag_IsAllocated (sig : jtag_Signal) (st : jtag_State) : Bool :=
  (st.signals sig).isSome

/-- Every assigned pin is inside the 16-pin port. -/
def pinsInRange (f : jtag_Signal → Option Nat) : Bool :=
  jtag_SignalList.all fun s => (f s).all fun p => decide (p < 16)

/-- At most one signal is assigned to any given pin. -/
def noAlias (f : jtag_Signal → Option Nat) : Bool :=
  jtag_SignalList.all fun s1 => jtag_SignalList.all fun s2 =>
    decide (s1 = s2) || decide (f s1 = none) || decide (f s1 ≠ f s2)

/-- The signal/pin state invariant: assigned pins are in range, the usage
bitset has exactly the bits of the pins appearing in the assignment
table, and no two signals share a pin. -/
def jtag_Inv (st : jtag_State) : Bool :=
  pinsInRange st.signals && decide (st.pinUsage = usageOf st.signals) &&
    noAlias st.signals

/-- A concrete all-zero pre-initialization state, used as a witness
input. -/
def jtag_ZeroState : jtag_State :=
  { signals := fun _ => none, pinUsage := 0, MODER := 0, OTYPER := 0,
    OSPEEDR := 0, PUPDR := 0, IDR := 0, ODR := 0, BSRR := 0, AHBENR := 0 }

example : jtag_Inv (jtag_Init jtag_ZeroState) = true := by decide

example : (jtag_Cfg jtag_Signal.TMS (some 0) (jtag_Init jtag_ZeroState)).1 =
    false := by decide

theorem mem_jtag_SignalList (s : jtag_Signal) : s ∈ jtag_SignalList := by
  cases s <;> simp [jtag_SignalList]

theorem pinsInRange_iff (f : jtag_Signal → Option Nat) :
    pinsInRange f = true ↔ ∀ s p, f s = some p → p < 16 := by
  unfold pinsInRange
  rw [List.all_eq_true]
  constructor
  · intro h s p hp
    have hs := h s (mem_jtag_SignalList s)
    rw [hp] at hs
    simpa using hs
  · intro h s _
    cases hfs : f s with
    | none => rfl
    | some p => simpa using h s p hfs

theorem noAlias_iff (f : jtag_Signal → Option Nat) :
    noAlias f = true ↔
      ∀ s1 s2 p, f s1 = some p → f s2 = some p → s1 = s2 := by
  unfold noAlias
  simp only [List.all_eq_true, Bool.or_eq_true, decide_eq_true_eq]
  constructor
  · intro h s1 s2 p h1 h2
    rcases h s1 (mem_jtag_SignalList s1) s2 (mem_jtag_SignalList s2) with
      (h' | h') | h'
    · exact h'
    · rw [h1] at h'
      cases h'
    · rw [h1, h2] at h'
      exact absurd rfl h'
  · intro h s1 _ s2 _
    by_cases he : s1 = s2
    · exact Or.inl (Or.inl he)
    · cases hf : f s1 with
      | none => exact Or.inl (Or.inr rfl)
      | some p =>
        refine Or.inr fun heq => he ?_
        exact h s1 s2 p hf heq.symm

theorem sigBit_testBit (o : Option Nat) (i : Nat) :
    (sigBit o).testBit i = true ↔ o = some i := by
  cases o with
  | none => simp [sigBit]
  | some p =>
    show (1 <<< p).testBit i = true ↔ _
    rw [Nat.shiftLeft_eq, Nat.one_mul, Nat.testBit_two_pow]
    simp

theorem usageOf_testBit (f : jtag_Signal → Option Nat) (i : Nat) :
    (usageOf f).testBit i = true ↔ ∃ s, f s = some i := by
  show (sigBit (f jtag_Signal.TCK) |||
    (sigBit (f jtag_Signal.TMS) ||| (sigBit (f jtag_Signal.TDI) |||
      (sigBit (f jtag_Signal.TDO) |||
        (sigBit (f jtag_Signal.TRST) ||| 0))))).testBit i = true ↔ _
  simp only [Nat.testBit_or, Bool.or_eq_true, sigBit_testBit, Nat.zero_testBit,
    Bool.false_eq_true, or_false]
  constructor
  · rintro (h | h | h | h | h)
    exacts [⟨_, h⟩, ⟨_, h⟩, ⟨_, h⟩, ⟨_, h⟩, ⟨_, h⟩]
  · rintro ⟨s, hs⟩
    cases s
    · exact Or.inl hs
    · exact Or.inr (Or.inl hs)
    · exact Or.inr (Or.inr (Or.inl hs))
    · exact Or.inr (Or.inr (Or.inr (Or.inl hs)))
    · exact Or.inr (Or.inr (Or.inr (Or.inr hs)))

theorem bool_eq_of_iff {a b : Bool} (h : a = true ↔ b = true) : a = b := by
  cases a <;> cases b <;> simp_all

theorem usage_deconfig (f : jtag_Signal → Option Nat) (sig : jtag_Signal)
    (p : Nat)
    (hr : ∀ s q, f s = some q → q < 16)
    (hna : ∀ s1 s2 q, f s1 = some q → f s2 = some q → s1 = s2)
    (hp : f sig = some p) :
    clearBit32 (usageOf f) p = usageOf (updSig f sig none) := by
  have hp16 : p < 16 := hr sig p hp
  apply Nat.eq_of_testBit_eq
  intro i
  simp only [clearBit32, mask32, Nat.testBit_and, Nat.testBit_xor,
    Nat.testBit_two_pow_sub_one, Nat.shiftLeft_eq, Nat.one_mul,
    Nat.testBit_two_pow]
  by_cases hip : p = i
  · subst hip
    rw [decide_eq_true (show p < 32 by omega), decide_eq_true rfl,
      Bool.xor_self, Bool.and_false]
    symm
    apply bool_eq_of_iff
    simp only [usageOf_testBit]
    constructor
    · rintro ⟨s, hs⟩
      unfold updSig at hs
      by_cases hssig : s = sig
      · rw [if_pos hssig] at hs
        cases hs
      · rw [if_neg hssig] at hs
        exact absurd (hna s sig p hs hp) hssig
    · intro h
      cases h
  · rw [decide_eq_false hip]
    rcases Nat.lt_or_ge i 32 with hi32 | hi32
    · rw [decide_eq_true hi32, Bool.xor_false, Bool.and_true]
      apply bool_eq_of_iff
      simp only [usageOf_testBit]
      constructor
      · rintro ⟨s, hs⟩
        refine ⟨s, ?_⟩
        unfold updSig
        rw [if_neg ?_]
        · exact hs
        · rintro rfl
          rw [hp] at hs
          exact hip (Option.some.inj hs)
      · rintro ⟨s, hs⟩
        unfold updSig at hs
        by_cases hssig : s = sig
        · rw [if_pos hssig] at hs
          cases hs
        · rw [if_neg hssig] at hs
          exact ⟨s, hs⟩
    · rw [decide_eq_false (show ¬ i < 32 by omega), Bool.false_xor,
        Bool.and_false]
      symm
      apply bool_eq_of_iff
      simp only [usageOf_testBit]
      constructor
      · rintro ⟨s, hs⟩
        unfold updSig at hs
        by_cases hssig : s = sig
        · rw [if_pos hssig] at hs
          cases hs
        · rw [if_neg hssig] at hs
          exact absurd (hr s i hs) (by omega)
      · intro h
        cases h

theorem usage_claim (f : jtag_Signal → Option Nat) (sig : jtag_Signal)
    (pin : Nat)
    (hsig : f sig = none ∨ f sig = some pin) :
    setBit32 (usageOf f) pin = usageOf (updSig f sig (some pin)) := by
  apply Nat.eq_of_testBit_eq
  intro i
  simp only [setBit32, Nat.testBit_or, Nat.shiftLeft_eq, Nat.one_mul,
    Nat.testBit_two_pow]
  apply bool_eq_of_iff
  simp only [Bool.or_eq_true, decide_eq_true_eq, usageOf_testBit]
  constructor
  · rintro (⟨s, hs⟩ | hpin)
    · by_cases hssig : s = sig
      · subst hssig
        rcases hsig with h' | h'
        · rw [h'] at hs
          cases hs
        · rw [h'] at hs
          refine ⟨s, ?_⟩
          unfold updSig
          rw [if_pos rfl]
          exact hs
      · refine ⟨s, ?_⟩
        unfold updSig
        rw [if_neg hssig]
        exact hs
    · refine ⟨sig, ?_⟩
      unfold updSig
      rw [if_pos rfl, hpin]
  · rintro ⟨s, hs⟩
    unfold updSig at hs
    by_cases hssig : s = sig
    · rw [if_pos hssig] at hs
      exact Or.inr (Option.some.inj hs)
    · rw [if_neg hssig] at hs
      exact Or.inl ⟨s, hs⟩

theorem deconfig_signals (sig : jtag_Signal) (p : Nat) (st : jtag_State) :
    (jtag_Deconfig sig p st).signals = updSig st.signals sig none := rfl

theorem deconfig_pinUsage (sig : jtag_Signal) (p : Nat) (st : jtag_State) :
    (jtag_Deconfig sig p st).pinUsage = clearBit32 st.pinUsage p := rfl

theorem claim_signals (sig : jtag_Signal) (pin : Nat) (st : jtag_State) :
    (jtag_Claim sig pin st).signals = updSig st.signals sig (some pin) := rfl

theorem claim_pinUsage (sig : jtag_Signal) (pin : Nat) (st : jtag_State) :
    (jtag_Claim sig pin st).pinUsage = setBit32 st.pinUsage pin := rfl

theorem jtag_Inv_iff (st : jtag_State) :
    jtag_Inv st = true ↔
      (∀ s p, st.signals s = some p → p < 16) ∧
      st.pinUsage = usageOf st.signals ∧
      (∀ s1 s2 p, st.signals s1 = some p → st.signals s2 = some p →
        s1 = s2) := by
  unfold jtag_Inv
  simp only [Bool.and_eq_true, decide_eq_true_eq, pinsInRange_iff, noAlias_iff]
  tauto

theorem jtag_Inv_Deconfig (st : jtag_State) (sig : jtag_Signal) (p : Nat)
    (h : jtag_Inv st = true) (hp : st.signals sig = some p) :
    jtag_Inv (jtag_Deconfig sig p st) = true := by
  rw [jtag_Inv_iff] at h ⊢
  obtain ⟨hr, hu, hna⟩ := h
  rw [deconfig_signals, deconfig_pinUsage]
  refine ⟨?_, ?_, ?_⟩
  · intro s q hq
    unfold updSig at hq
    by_cases hss : s = sig
    · rw [if_pos hss] at hq
      cases hq
    · rw [if_neg hss] at hq
      exact hr s q hq
  · rw [hu]
    exact usage_deconfig st.signals sig p hr hna hp
  · intro s1 s2 q h1 h2
    unfold updSig at h1 h2
    by_cases h1s : s1 = sig
    · rw [if_pos h1s] at h1
      cases h1
    · rw [if_neg h1s] at h1
      by_cases h2s : s2 = sig
      · rw [if_pos h2s] at h2
        cases h2
      · rw [if_neg h2s] at h2
        exact hna s1 s2 q h1 h2

theorem jtag_Inv_Claim (st : jtag_State) (sig : jtag_Signal) (pin : Nat)
    (h : jtag_Inv st = true) (hpin : pin < 16)
    (hsig : st.signals sig = none ∨ st.signals sig = some pin)
    (hfree : ∀ s, s ≠ sig → st.signals s ≠ some pin) :
    jtag_Inv (jtag_Claim sig pin st) = true := by
  rw [jtag_Inv_iff] at h ⊢
  obtain ⟨hr, hu, hna⟩ := h
  rw [claim_signals, claim_pinUsage]
  refine ⟨?_, ?_, ?_⟩
  · intro s q hq
    unfold updSig at hq
    by_cases hss : s = sig
    · rw [if_pos hss] at hq
      rw [← Option.some.inj hq]
      exact hpin
    · rw [if_neg hss] at hq
      exact hr s q hq
  · rw [hu]
    exact usage_claim st.signals sig pin hsig
  · intro s1 s2 q h1 h2
    unfold updSig at h1 h2
    by_cases h1s : s1 = sig
    · by_cases h2s : s2 = sig
      · rw [h1s, h2s]
      · rw [if_pos h1s] at h1
        rw [if_neg h2s] at h2
        rw [← Option.some.inj h1] at h2
        exact absurd h2 (hfree s2 h2s)
    · rw [if_neg h1s] at h1
      by_cases h2s : s2 = sig
      · rw [if_pos h2s] at h2
        rw [← Option.some.inj h2] at h1
        exact absurd h1 (hfree s1 h1s)
      · rw [if_neg h2s] at h2
        exact hna s1 s2 q h1 h2

/-- Claim C2 (spec-modelled `jtag.c`): `jtag_Cfg` is transactional on
failure — for every state, signal and requested pin, if the pin is
outside the valid range (≥ 16) or is already claimed by a different
signal, the call returns `false` and every piece of state (the pin usage
bitset, the assignment of every signal, and all hardware register
values) is exactly its value before the call. -/
theorem jtag_Cfg_fail_no_change (st : jtag_State) (sig : jtag_Signal)
    (pin : Nat)
    (h : 16 ≤ pin ∨ ∃ s, s ≠ sig ∧ st.signals s = some pin) :
    jtag_Cfg sig (some pin) st = (false, st) := by
  by_cases h16 : 16 ≤ pin
  · simp [jtag_Cfg, h16]
  · rcases h with h' | ⟨s, hss, hsp⟩
    · exact absurd h' h16
    · have hcl : pinClaimedByOther st.signals sig pin = true := by
        unfold pinClaimedByOther
        rw [List.any_eq_true]
        exact ⟨s, mem_jtag_SignalList s, by simp [hss, hsp]⟩
      simp [jtag_Cfg, h16, hcl]

/-- Witness for claim C2 at a concrete input: after initialization, pin 0
belongs to TCK, so configuring TMS onto pin 0 fails without any state
change. -/
theorem jtag_Cfg_fail_no_change_witness :
    (16 ≤ 0 ∨ ∃ s, s ≠ jtag_Signal.TMS ∧
      (jtag_Init jtag_ZeroState).signals s = some 0) ∧
    jtag_Cfg jtag_Signal.TMS (some 0) (jtag_Init jtag_ZeroState) =
      (false, jtag_Init jtag_ZeroState) :=
  ⟨Or.inr ⟨jtag_Signal.TCK, by decide, by decide⟩,
   jtag_Cfg_fail_no_change (jtag_Init jtag_ZeroState) jtag_Signal.TMS 0
     (Or.inr ⟨jtag_Signal.TCK, by decide, by decide⟩)⟩

/-- Claim C3 (spec-modelled `jtag.c`): the signal/pin state invariant —
the pin usage bitset has exactly the bits of the pins appearing in the
signal assignment table, at most one signal is assigned to any pin (and
all assigned pins are inside the 16-pin port) — is established by
`jtag_Init` and preserved by every `jtag_Cfg` call, succeeding or
failing. -/
theorem jtag_Init_Cfg_inv :
    (∀ st, jtag_Inv (jtag_Init st) = true) ∧
    (∀ st sig req, jtag_Inv st = true →
      jtag_Inv (jtag_Cfg sig req st).2 = true) := by
  constructor
  · intro st
    have h0 : jtag_Inv (jtag_Init st) = jtag_Inv (jtag_Init jtag_ZeroState) :=
      rfl
    rw [h0]
    decide
  · intro st sig req h
    match req with
    | none =>
      cases hsig : st.signals sig with
      | none => simpa [jtag_Cfg, hsig] using h
      | some p =>
        simp only [jtag_Cfg, hsig]
        exact jtag_Inv_Deconfig st sig p h hsig
    | some pin =>
      by_cases h16 : 16 ≤ pin
      · simpa [jtag_Cfg, h16] using h
      · by_cases hcl : pinClaimedByOther st.signals sig pin = true
        · simpa [jtag_Cfg, h16, hcl] using h
        · rw [Bool.not_eq_true] at hcl
          have hfree : ∀ s, s ≠ sig → st.signals s ≠ some pin := by
            intro s hss hsp
            have : pinClaimedByOther st.signals sig pin = true := by
              unfold pinClaimedByOther
              rw [List.any_eq_true]
              exact ⟨s, mem_jtag_SignalList s, by simp [hss, hsp]⟩
            rw [hcl] at this
            cases this
          cases hsig : st.signals sig with
          | none =>
            simp only [jtag_Cfg, h16, hcl, hsig, if_false, Bool.false_eq_true,
              ite_false]
            exact jtag_Inv_Claim st sig pin h (by omega) (Or.inl hsig) hfree
          | some old =>
            by_cases hop : old = pin
            · subst hop
              simp only [jtag_Cfg, h16, hcl, hsig, if_pos rfl,
                Bool.false_eq_true, ite_false]
              exact jtag_Inv_Claim st sig old h (by omega) (Or.inr hsig) hfree
            · simp only [jtag_Cfg, h16, hcl, hsig, if_neg hop,
                Bool.false_eq_true, ite_false]
              have h1 := jtag_Inv_Deconfig st sig old h hsig
              refine jtag_Inv_Claim _ sig pin h1 (by omega) (Or.inl ?_) ?_
              · rw [deconfig_signals]
                unfold updSig
                rw [if_pos rfl]
              · intro s hss
                rw [deconfig_signals]
                unfold updSig
                rw [if_neg hss]
                exact hfree s hss

/-- Witness for claim C3 at a concrete input: the invariant holds after
initialization and is preserved by a configure call on TRST. -/
theorem jtag_Init_Cfg_inv_witness :
    jtag_Inv (jtag_Init jtag_ZeroState) = true ∧
    jtag_Inv (jtag_Cfg jtag_Signal.TRST (some 7)
      (jtag_Init jtag_ZeroState)).2 = true :=
  ⟨by decide,
   jtag_Init_Cfg_inv.2 (jtag_Init jtag_ZeroState) jtag_Signal.TRST (some 7)
     (by decide)⟩
